import Mathlib

/-!
# infomark-backend: response payloads and course handlers

A shallow embedding of `api/app/grade_responses.go` and `api/app/course.go`,
followed by a model of the grade aggregator that the specification describes.

Go's `int` and `int64` values are only copied or compared here, never used in
arithmetic, so they are represented by `Int`.  Go strings are represented by
`String`.  A Go slice is a `GoSlice`, which keeps the `nil` slice apart from an
allocated empty one.
-/

namespace Infomark

/-! ## Go slices -/

/-- A Go slice: `none` is the `nil` slice, `some xs` an allocated slice holding `xs`. -/
abbrev GoSlice (α : Type) := Option (List α)

/-- The elements a `for k := range s` loop visits, in order. -/
def GoSlice.elems {α : Type} : GoSlice α → List α
  | none => []
  | some xs => xs

/-- Go's builtin `len`. -/
def GoSlice.len {α : Type} (s : GoSlice α) : Nat := s.elems.length

/-- Go's builtin `append(s, x)`; the result is never `nil`. -/
def GoSlice.append {α : Type} (s : GoSlice α) (x : α) : GoSlice α :=
  some (s.elems ++ [x])

/-! ## `model.Grade` and `model.MissingGrade` -/

/-- Modelled from the spec: the declaration of `model.Grade` is not part of the
sources at hand; these are the twelve fields `newGradeResponse` reads from it,
with the types of the `GradeResponse` fields they are assigned to. -/
structure Grade where
  ID : Int
  PublicExecutionState : Int
  PrivateExecutionState : Int
  PublicTestLog : String
  PrivateTestLog : String
  PublicTestStatus : Int
  PrivateTestStatus : Int
  AcquiredPoints : Int
  Feedback : String
  TutorID : Int
  UserID : Int
  SubmissionID : Int
  deriving DecidableEq, Repr

/-- Modelled from the spec: the declaration of `model.MissingGrade` is not part
of the sources at hand; `newMissingGradeResponse` reads the twelve grade fields
and `CourseID`, `SheetID`, `TaskID` directly from it. -/
structure MissingGrade extends Grade where
  CourseID : Int
  SheetID : Int
  TaskID : Int
  deriving DecidableEq, Repr

/-! ## `grade_responses.go` -/

/-- The response payload for Grade management (`GradeResponse`). -/
structure GradeResponse where
  ID : Int
  PublicExecutionState : Int
  PrivateExecutionState : Int
  PublicTestLog : String
  PrivateTestLog : String
  PublicTestStatus : Int
  PrivateTestStatus : Int
  AcquiredPoints : Int
  Feedback : String
  TutorID : Int
  UserID : Int
  SubmissionID : Int
  deriving DecidableEq, Repr

/-- The anonymous struct type of the `Grade` field of `MissingGradeResponse`. -/
structure MissingGradeResponseGrade where
  ID : Int
  PublicExecutionState : Int
  PrivateExecutionState : Int
  PublicTestLog : String
  PrivateTestLog : String
  PublicTestStatus : Int
  PrivateTestStatus : Int
  AcquiredPoints : Int
  Feedback : String
  TutorID : Int
  UserID : Int
  SubmissionID : Int
  deriving DecidableEq, Repr

/-- The zero value of the nested `Grade` struct. -/
def MissingGradeResponseGrade.zero : MissingGradeResponseGrade :=
  { ID := 0, PublicExecutionState := 0, PrivateExecutionState := 0,
    PublicTestLog := "", PrivateTestLog := "", PublicTestStatus := 0,
    PrivateTestStatus := 0, AcquiredPoints := 0, Feedback := "",
    TutorID := 0, UserID := 0, SubmissionID := 0 }

/-- The response payload `MissingGradeResponse`. -/
structure MissingGradeResponse where
  Grade : MissingGradeResponseGrade
  CourseID : Int
  SheetID : Int
  TaskID : Int
  deriving DecidableEq, Repr

/-- Creates a response from a Grade model (`newGradeResponse`). -/
def newGradeResponse (p : Grade) : GradeResponse :=
  { ID := p.ID
    PublicExecutionState := p.PublicExecutionState
    PrivateExecutionState := p.PrivateExecutionState
    PublicTestLog := p.PublicTestLog
    PrivateTestLog := p.PrivateTestLog
    PublicTestStatus := p.PublicTestStatus
    PrivateTestStatus := p.PrivateTestStatus
    AcquiredPoints := p.AcquiredPoints
    Feedback := p.Feedback
    TutorID := p.TutorID
    UserID := p.UserID
    SubmissionID := p.SubmissionID }

/-- Creates a response from a MissingGrade model (`newMissingGradeResponse`):
the composite literal sets the three ids and leaves `Grade` at its zero value,
then the twelve assignments fill the nested struct one field at a time. -/
def newMissingGradeResponse (p : MissingGrade) : MissingGradeResponse :=
  let r : MissingGradeResponse :=
    { Grade := MissingGradeResponseGrade.zero
      CourseID := p.CourseID
      SheetID := p.SheetID
      TaskID := p.TaskID }
  let r := { r with Grade := { r.Grade with ID := p.ID } }
  let r := { r with Grade := { r.Grade with PublicExecutionState := p.PublicExecutionState } }
  let r := { r with Grade := { r.Grade with PrivateExecutionState := p.PrivateExecutionState } }
  let r := { r with Grade := { r.Grade with PublicTestLog := p.PublicTestLog } }
  let r := { r with Grade := { r.Grade with PrivateTestLog := p.PrivateTestLog } }
  let r := { r with Grade := { r.Grade with PublicTestStatus := p.PublicTestStatus } }
  let r := { r with Grade := { r.Grade with PrivateTestStatus := p.PrivateTestStatus } }
  let r := { r with Grade := { r.Grade with AcquiredPoints := p.AcquiredPoints } }
  let r := { r with Grade := { r.Grade with Feedback := p.Feedback } }
  let r := { r with Grade := { r.Grade with TutorID := p.TutorID } }
  let r := { r with Grade := { r.Grade with UserID := p.UserID } }
  let r := { r with Grade := { r.Grade with SubmissionID := p.SubmissionID } }
  r

/-- The values of interface type `render.Renderer` built in `grade_responses.go`:
a pointer to a `GradeResponse` or to a `MissingGradeResponse`. -/
inductive Renderer where
  | gradeResponse (r : GradeResponse)
  | missingGradeResponse (r : MissingGradeResponse)
  deriving DecidableEq, Repr

/-- Creates a response from a list of Grade models (`newGradeListResponse`):
starts from the allocated empty slice and appends one response per index. -/
def newGradeListResponse (Grades : GoSlice Grade) : GoSlice Renderer :=
  Grades.elems.foldl
    (fun list g => GoSlice.append list (Renderer.gradeResponse (newGradeResponse g)))
    (some [])

/-- Creates a response from a list of MissingGrade models
(`newMissingGradeListResponse`). -/
def newMissingGradeListResponse (Grades : GoSlice MissingGrade) : GoSlice Renderer :=
  Grades.elems.foldl
    (fun list g => GoSlice.append list (Renderer.missingGradeResponse (newMissingGradeResponse g)))
    (some [])

/-! ## `strconv.ParseInt` at base 10, bit size 64 -/

/-- The `Err` field of the `*strconv.NumError` that `ParseInt` returns. -/
inductive NumError where
  | ErrSyntax
  | ErrRange
  deriving DecidableEq, Repr

/-- The result pair `(value, err)` of Go's number parsers. -/
abbrev ParseResult := Int × Option NumError

/-- The largest `uint64`. -/
def maxUint64 : Nat := 2 ^ 64 - 1

/-- Go's `lower(c)`: `c | ('x' - 'X')`, on the code point. -/
def lower (c : Char) : Nat := c.toNat ||| 0x20

/-- The digit loop of `strconv.ParseUint(s, 10, 64)` over the remaining bytes
with the accumulator `n`; result is `(n, err)`.  Arithmetic is on `uint64`,
so every sum and product is taken modulo `2 ^ 64` as the machine does. -/
def parseUintLoop : List Char → Nat → Nat × Option NumError
  | [], n => (n, none)
  | c :: cs, n =>
    let cutoff := maxUint64 / 10 + 1
    let maxVal := maxUint64
    let digit : Option Nat :=
      if '0'.toNat ≤ c.toNat ∧ c.toNat ≤ '9'.toNat then some (c.toNat - '0'.toNat)
      else if 'a'.toNat ≤ lower c ∧ lower c ≤ 'z'.toNat then some (lower c - 'a'.toNat + 10)
      else none
    match digit with
    | none => (0, some NumError.ErrSyntax)
    | some d =>
      if d ≥ 10 then (0, some NumError.ErrSyntax)
      else if n ≥ cutoff then (maxVal, some NumError.ErrRange)
      else
        let n := (n * 10) % 2 ^ 64
        let n1 := (n + d) % 2 ^ 64
        if n1 < n ∨ n1 > maxVal then (maxVal, some NumError.ErrRange)
        else parseUintLoop cs n1

/-- Go's `strconv.ParseUint(s, 10, 64)` on the bytes of `s`. -/
def ParseUint (s : List Char) : Nat × Option NumError :=
  match s with
  | [] => (0, some NumError.ErrSyntax)
  | _ => parseUintLoop s 0

/-- Go's `strconv.ParseInt(s, 10, 64)`: an optional sign, then `ParseUint`,
then the range check against `1 << 63`. -/
def ParseInt (s : String) : ParseResult :=
  match s.data with
  | [] => (0, some NumError.ErrSyntax)
  | c :: rest =>
    let neg := c = '-'
    let digits := if c = '+' then rest else if c = '-' then rest else c :: rest
    let (un, err) := ParseUint digits
    if err = some NumError.ErrSyntax then (0, err)
    else
      let cutoff : Nat := 2 ^ 63
      if ¬ neg ∧ un ≥ cutoff then ((cutoff : Int) - 1, some NumError.ErrRange)
      else if neg ∧ un > cutoff then (-(cutoff : Int), some NumError.ErrRange)
      else
        let n : Int := (un : Int)
        (if neg then -n else n, none)

/-! ## `course.go` -/

/-- Modelled from the spec: the declaration of `model.Course` is not part of
the sources at hand; `ID` and `Name` are the fields the handlers read. -/
structure Course where
  ID : Int
  Name : String
  deriving DecidableEq, Repr

/-- Modelled from the spec: the declaration of `model.Sheet` is not part of the
sources at hand; a sheet is only passed through by the course handlers. -/
structure Sheet where
  ID : Int
  deriving DecidableEq, Repr

/-- A Go `error` value as the course handlers see it: the failure of the
`validation.Required` rule on `Name`, or an error reported by a collaborator. -/
inductive GoError where
  | nameRequired
  | other (msg : String)
  deriving DecidableEq, Repr

/-- The request payload for course management (`courseRequest`): the embedded
`*model.Course` is `none` when the pointer is `nil`. -/
structure courseRequest where
  Course : Option Course
  ProtectedID : Int
  deriving DecidableEq, Repr

/-- The response payload for course management (`courseResponse`). -/
structure courseResponse where
  Course : Course
  Sheets : GoSlice Sheet
  deriving DecidableEq, Repr

/-- What a handler hands to `render.Render`: a course response or one of the
error payloads of the package. -/
inductive Payload where
  | courseResponse (v : courseResponse)
  | ErrNotFound
  | ErrBadRequestWithDetails (err : GoError)
  | ErrRender (err : GoError)
  | ErrInternalServerErrorWithDetails (err : GoError)
  deriving DecidableEq, Repr

/-- A value stored in a request context. -/
inductive CtxValue where
  | course (c : Course)
  | other (v : String)
  deriving DecidableEq, Repr

/-- The part of `*http.Request` the course handlers use: the raw body, chi's
URL parameters (`chi.URLParam` gives the empty string for an absent key) and
the values of the request context. -/
structure Request where
  Body : String
  URLParam : String → String
  Value : String → Option CtxValue

/-- Go's `context.WithValue` followed by `r.WithContext`: the new request
answers `key` with `val` and every other key as before. -/
def Request.WithValue (r : Request) (key : String) (val : CtxValue) : Request :=
  { r with Value := fun k => if k = key then some val else r.Value k }

/-- The collaborators of a `CourseResource`: the two stores, `render.Decode`
of a request body into a `courseRequest`, `model.Course.Validate`, and the
error (if any) that the `Render` chain of a payload reports. -/
structure CourseResource where
  Get : Int → Except GoError Course
  Create : Course → Except GoError Course
  SheetsOfCourse : Course → Bool → GoSlice Sheet × Option GoError
  Decode : Request → courseRequest → courseRequest × Option GoError
  Validate : Course → Option GoError
  Render : Payload → Option GoError

/-- The observable calls a handler makes, in order. -/
inductive Event where
  | storeGet (courseID : Int)
  | storeCreate (p : Course)
  | sheetsOfCourse (p : Course) (only_active : Bool)
  | render (v : Payload)
  | status (code : Nat)
  | serveNext (r : Request)
  | panic

/-- Creates a response from a course model (`newCourseResponse`). -/
def CourseResource.newCourseResponse (rs : CourseResource) (p : Course) : courseResponse :=
  let sheets := (rs.SheetsOfCourse p false).1
  { Course := p, Sheets := sheets }

/-- Preprocesses a `courseRequest` (`Bind`).  The result is the request after
the call together with the returned error; `none` is the run-time panic of
taking `&body.Name` through a `nil` embedded `*model.Course`. -/
def courseRequest.Bind (body : courseRequest) : Option (courseRequest × Option GoError) :=
  let body := { body with ProtectedID := 0 }
  match body.Course with
  | none => none
  | some c =>
    let err := if c.Name = "" then some GoError.nameRequired else none
    some (body, err)

/-- The `render.Bind(r, data)` call of chi: decode the body into `data`, then
run `data.Bind(r)` unless decoding failed. -/
def renderBind (rs : CourseResource) (r : Request) (data : courseRequest) :
    Option (courseRequest × Option GoError) :=
  match rs.Decode r data with
  | (data, some err) => some (data, some err)
  | (data, none) => data.Bind

/-- The empty request `&courseRequest{}` a handler starts from. -/
def courseRequest.empty : courseRequest := { Course := none, ProtectedID := 0 }

/-- The endpoint for creating a course (`CreateHandler`), as the list of calls
it makes. -/
def CourseResource.CreateHandler (rs : CourseResource) (r : Request) : List Event :=
  let data : courseRequest := courseRequest.empty
  match renderBind rs r data with
  | none => [Event.panic]
  | some (_, some err) => [Event.render (Payload.ErrBadRequestWithDetails err)]
  | some (data, none) =>
    match data.Course with
    | none => [Event.panic]
    | some course =>
      match rs.Validate course with
      | some err => [Event.render (Payload.ErrBadRequestWithDetails err)]
      | none =>
        match rs.Create course with
        | .error err => [Event.storeCreate course, Event.render (Payload.ErrRender err)]
        | .ok newCourse =>
          let resp := Payload.courseResponse (rs.newCourseResponse newCourse)
          match rs.Render resp with
          | some err =>
            [Event.storeCreate course, Event.sheetsOfCourse newCourse false,
              Event.render resp, Event.render (Payload.ErrRender err)]
          | none =>
            [Event.storeCreate course, Event.sheetsOfCourse newCourse false,
              Event.render resp, Event.status 201]

/-- The `Context` middleware around the handler `next`, as the list of calls
it makes for one request. -/
def CourseResource.Context (d : CourseResource) (r : Request) : List Event :=
  match ParseInt (r.URLParam "courseID") with
  | (_, some _) => [Event.render Payload.ErrNotFound]
  | (course_id, none) =>
    match d.Get course_id with
    | .error _ => [Event.storeGet course_id, Event.render Payload.ErrNotFound]
    | .ok course =>
      [Event.storeGet course_id,
        Event.serveNext (r.WithValue "course" (CtxValue.course course))]

/-- Whether an event is a call of `next.ServeHTTP`. -/
def Event.isServeNext : Event → Bool
  | Event.serveNext _ => true
  | _ => false

/-- Whether an event is a call of `CourseStore.Create`. -/
def Event.isStoreCreate : Event → Bool
  | Event.storeCreate _ => true
  | _ => false

/-- Whether an event is a `render.Render` call. -/
def Event.isRender : Event → Bool
  | Event.render _ => true
  | _ => false

/-! ## Sample collaborators and requests -/

/-- The JSON body of an empty object. -/
def bodyEmptyObject : String := "\x7b\x7d"

/-- The JSON body of an object that carries an id only. -/
def bodyIdOnly : String := "\x7b\"id\":5\x7d"

/-- The JSON body of an object whose name is the empty string. -/
def bodyBlankName : String := "\x7b\"name\":\"\"\x7d"

/-- The JSON body of a course named `x`. -/
def bodyNameX : String := "\x7b\"name\":\"x\"\x7d"

/-- The JSON body of a course named `Algo`. -/
def bodyNameAlgo : String := "\x7b\"name\":\"Algo\"\x7d"

/-- A sample resource: the store knows course 1 only and creation assigns id 7.
Decoding follows `encoding/json` on five bodies: the empty object leaves the
request as it is (no course is allocated), an id alone lands in `ProtectedID`,
a name allocates the embedded course; any other body does not decode.  A
course named `x` does not validate. -/
def sampleResource : CourseResource :=
  { Get := fun id =>
      if id = 1 then .ok { ID := 1, Name := "Informatik 1" } else .error (GoError.other "no rows")
    Create := fun p => .ok { p with ID := 7 }
    SheetsOfCourse := fun _ _ => (some [], none)
    Decode := fun r data =>
      if r.Body = bodyEmptyObject then (data, none)
      else if r.Body = bodyIdOnly then ({ data with ProtectedID := 5 }, none)
      else if r.Body = bodyBlankName then
        ({ data with Course := some { ID := 0, Name := "" } }, none)
      else if r.Body = bodyNameX then
        ({ data with Course := some { ID := 0, Name := "x" } }, none)
      else if r.Body = bodyNameAlgo then
        ({ data with Course := some { ID := 0, Name := "Algo" } }, none)
      else (data, some (GoError.other "invalid json"))
    Validate := fun p => if p.Name = "x" then some (GoError.other "name too short") else none
    Render := fun _ => none }

/-- A sample request with the given body and `courseID` URL parameter and an
empty context. -/
def sampleRequest (body courseID : String) : Request :=
  { Body := body
    URLParam := fun key => if key = "courseID" then courseID else ""
    Value := fun _ => none }

/-! ## The grade aggregator of the specification (§3, §4.3) -/

namespace Aggregator

/-- Modelled from the spec: the two test-suite visibilities (§3 TestSuite). -/
inductive Visibility where
  | Public
  | Private
  deriving DecidableEq, Repr

/-- Modelled from the spec: the states of one visibility track (§4.3),
`NotStarted -> Queued -> Running -> {Passed | Failed | Errored}`. -/
inductive TrackState where
  | NotStarted
  | Queued
  | Running
  | Passed
  | Failed
  | Errored
  deriving DecidableEq, Repr

/-- Modelled from the spec: a test status, pass/fail/unknown (§3 Grade). -/
inductive TestStatus where
  | Unknown
  | Passed
  | Failed
  deriving DecidableEq, Repr

/-- Modelled from the spec: the terminal outcome a worker reports for one run
(§4.2), `Succeeded`, `Failed` (test failures) or `Errored` (timeout, crash,
infrastructure fault after the retries are exhausted). -/
inductive RunOutcome where
  | Succeeded
  | Failed
  | Errored
  deriving DecidableEq, Repr

/-- Modelled from the spec: the completion event of §4.2 that the aggregator
consumes, keyed by (submissionID, visibility, attemptNumber) and carrying the
submission generation of §5, the captured log and the score of the run. -/
structure CompletionEvent where
  submissionID : Nat
  visibility : Visibility
  attemptNumber : Nat
  generation : Nat
  outcome : RunOutcome
  log : String
  pointsAwarded : Nat
  deriving DecidableEq, Repr

/-- Modelled from the spec: the durable Grade aggregate of §3; `tutorID` is
`none` unless a tutor has overridden the grade by hand. -/
structure Grade where
  publicExecutionState : TrackState
  privateExecutionState : TrackState
  publicTestStatus : TestStatus
  privateTestStatus : TestStatus
  publicTestLog : String
  privateTestLog : String
  acquiredPoints : Nat
  feedback : String
  tutorID : Option Nat
  userID : Nat
  submissionID : Nat
  deriving DecidableEq, Repr

/-- Modelled from the spec: what the aggregator keeps per submission: the
Grade, the attempt number recorded for each track (§4.3 idempotence), the
points of the latest applied private run (§3: points are derived from the
private RunRecord only), the accepted submission generation (§5) and the
conflict flag raised when an automated update meets a tutor override (§3). -/
structure State where
  grade : Grade
  publicAttempt : Nat
  privateAttempt : Nat
  privatePoints : Nat
  generation : Nat
  conflict : Bool
  deriving DecidableEq, Repr

/-- Modelled from the spec: the Grade created lazily on the first enqueue of a
submission (§3 lifecycle): both tracks not started, statuses unknown, no
points, no feedback, no tutor. -/
def newState (submissionID userID generation : Nat) : State :=
  { grade :=
      { publicExecutionState := TrackState.NotStarted
        privateExecutionState := TrackState.NotStarted
        publicTestStatus := TestStatus.Unknown
        privateTestStatus := TestStatus.Unknown
        publicTestLog := ""
        privateTestLog := ""
        acquiredPoints := 0
        feedback := ""
        tutorID := none
        userID := userID
        submissionID := submissionID }
    publicAttempt := 0
    privateAttempt := 0
    privatePoints := 0
    generation := generation
    conflict := false }

/-- Modelled from the spec: the track state a run outcome ends in (§4.3). -/
def RunOutcome.trackState : RunOutcome → TrackState
  | RunOutcome.Succeeded => TrackState.Passed
  | RunOutcome.Failed => TrackState.Failed
  | RunOutcome.Errored => TrackState.Errored

/-- Modelled from the spec: the test status a run outcome reports; a run that
errored gives no verdict on the tests. -/
def RunOutcome.testStatus : RunOutcome → TestStatus
  | RunOutcome.Succeeded => TestStatus.Passed
  | RunOutcome.Failed => TestStatus.Failed
  | RunOutcome.Errored => TestStatus.Unknown

/-- Modelled from the spec: whether the aggregator applies an event (§4.3
idempotence, §5 cancellation): it is for this submission, for the accepted
generation, and its attempt is newer than the one recorded for its track. -/
def accepts (s : State) (e : CompletionEvent) : Bool :=
  e.submissionID == s.grade.submissionID && e.generation == s.generation &&
    match e.visibility with
    | Visibility.Public => decide (s.publicAttempt < e.attemptNumber)
    | Visibility.Private => decide (s.privateAttempt < e.attemptNumber)

/-- Modelled from the spec: "each event updates only its own track's fields"
(§4.3): execution state, test status, log and recorded attempt of the event's
track, and for the private track the points of the run. -/
def updateTrack (s : State) (e : CompletionEvent) : State :=
  match e.visibility with
  | Visibility.Public =>
    { s with
      grade := { s.grade with
        publicExecutionState := e.outcome.trackState
        publicTestStatus := e.outcome.testStatus
        publicTestLog := e.log }
      publicAttempt := e.attemptNumber }
  | Visibility.Private =>
    { s with
      grade := { s.grade with
        privateExecutionState := e.outcome.trackState
        privateTestStatus := e.outcome.testStatus
        privateTestLog := e.log }
      privateAttempt := e.attemptNumber
      privatePoints := e.pointsAwarded }

/-- Modelled from the spec: the recomputation of the derived `acquiredPoints`
(§4.3, §3 invariant): with a tutor override the points stay and a conflict is
flagged; otherwise they are the private track's score when it is `Passed` or
`Failed`, `0` when it is `Errored`, and the previous value while the private
track has no terminal state. -/
def recompute (s : State) : State :=
  match s.grade.tutorID with
  | some _ => { s with conflict := true }
  | none =>
    match s.grade.privateExecutionState with
    | TrackState.Passed => { s with grade := { s.grade with acquiredPoints := s.privatePoints } }
    | TrackState.Failed => { s with grade := { s.grade with acquiredPoints := s.privatePoints } }
    | TrackState.Errored => { s with grade := { s.grade with acquiredPoints := 0 } }
    | _ => s

/-- Modelled from the spec: the aggregator's transition on one completion
event (§4.3): an event that is not accepted changes nothing; an accepted one
updates its own track and the derived fields are recomputed. -/
def applyEvent (s : State) (e : CompletionEvent) : State :=
  if accepts s e then recompute (updateTrack s e) else s

/-- Modelled from the spec: the aggregator consuming a sequence of completion
events in order of delivery. -/
def run (s : State) (events : List CompletionEvent) : State :=
  events.foldl applyEvent s

/-- The points of a Grade agree with its private track: without a tutor
override they are the private score once that track is `Passed` or `Failed`
and `0` once it is `Errored`. -/
def Consistent (s : State) : Prop :=
  s.grade.tutorID = none →
    ((s.grade.privateExecutionState = TrackState.Passed ∨
        s.grade.privateExecutionState = TrackState.Failed) →
      s.grade.acquiredPoints = s.privatePoints) ∧
    (s.grade.privateExecutionState = TrackState.Errored → s.grade.acquiredPoints = 0)

instance (s : State) : Decidable (Consistent s) := by
  unfold Consistent
  infer_instance

/-- A Grade without tutor override whose points (10) differ from the score of
its passed private track (3), with the public track not yet run. -/
def staleState : State :=
  { grade :=
      { publicExecutionState := TrackState.NotStarted
        privateExecutionState := TrackState.Passed
        publicTestStatus := TestStatus.Unknown
        privateTestStatus := TestStatus.Passed
        publicTestLog := ""
        privateTestLog := "all passed"
        acquiredPoints := 10
        feedback := ""
        tutorID := none
        userID := 222
        submissionID := 31 }
    publicAttempt := 0
    privateAttempt := 1
    privatePoints := 3
    generation := 0
    conflict := false }

/-- The completion of the first public run of submission 31, with failing
tests. -/
def publicFailure : CompletionEvent :=
  { submissionID := 31, visibility := Visibility.Public, attemptNumber := 1,
    generation := 0, outcome := RunOutcome.Failed, log := "1 of 4 failed",
    pointsAwarded := 0 }

/-- The Grade of submission 31 after a private run worth 6 points. -/
def gradedState : State :=
  run (newState 31 222 0)
    [{ submissionID := 31, visibility := Visibility.Private, attemptNumber := 1,
       generation := 0, outcome := RunOutcome.Failed, log := "3 of 5 failed",
       pointsAwarded := 6 }]

end Aggregator

end Infomark

/-! # Theorems -/

namespace Infomark

/-! ## Helper lemmas -/

/-- The append loop of the list builders computes a map: starting from an
allocated slice `acc`, appending `f g` for each `g` gives `acc ++ map f`. -/
theorem foldl_append_eq_map {α β : Type} (f : α → β) (xs : List α) (acc : List β) :
    xs.foldl (fun list g => GoSlice.append list (f g)) (some acc) = some (acc ++ xs.map f) := by
  induction xs generalizing acc with
  | nil => simp
  | cons x xs ih =>
    have hstep : GoSlice.append (some acc) (f x) = some (acc ++ [f x]) := rfl
    rw [List.foldl_cons, hstep, ih]
    simp

/-- The grade list builder is the map of `newGradeResponse`. -/
theorem newGradeListResponse_eq_map (gs : GoSlice Grade) :
    newGradeListResponse gs =
      some (gs.elems.map (fun g => Renderer.gradeResponse (newGradeResponse g))) := by
  unfold newGradeListResponse
  rw [foldl_append_eq_map]
  simp

/-- The missing-grade list builder is the map of `newMissingGradeResponse`. -/
theorem newMissingGradeListResponse_eq_map (ms : GoSlice MissingGrade) :
    newMissingGradeListResponse ms =
      some (ms.elems.map (fun g => Renderer.missingGradeResponse (newMissingGradeResponse g))) := by
  unfold newMissingGradeListResponse
  rw [foldl_append_eq_map]
  simp

/-! ## `grade_responses.go` -/

/-- C1: `newGradeResponse` copies each of the twelve fields of the Grade into
the field of the same name of the response, and two Grades give the same
response only if they agree on all twelve fields. -/
theorem newGradeResponse_copies_fields (p : Grade) :
    (newGradeResponse p).ID = p.ID ∧
    (newGradeResponse p).PublicExecutionState = p.PublicExecutionState ∧
    (newGradeResponse p).PrivateExecutionState = p.PrivateExecutionState ∧
    (newGradeResponse p).PublicTestLog = p.PublicTestLog ∧
    (newGradeResponse p).PrivateTestLog = p.PrivateTestLog ∧
    (newGradeResponse p).PublicTestStatus = p.PublicTestStatus ∧
    (newGradeResponse p).PrivateTestStatus = p.PrivateTestStatus ∧
    (newGradeResponse p).AcquiredPoints = p.AcquiredPoints ∧
    (newGradeResponse p).Feedback = p.Feedback ∧
    (newGradeResponse p).TutorID = p.TutorID ∧
    (newGradeResponse p).UserID = p.UserID ∧
    (newGradeResponse p).SubmissionID = p.SubmissionID ∧
    ∀ q : Grade, newGradeResponse p = newGradeResponse q ↔
      (p.ID = q.ID ∧ p.PublicExecutionState = q.PublicExecutionState ∧
        p.PrivateExecutionState = q.PrivateExecutionState ∧
        p.PublicTestLog = q.PublicTestLog ∧ p.PrivateTestLog = q.PrivateTestLog ∧
        p.PublicTestStatus = q.PublicTestStatus ∧ p.PrivateTestStatus = q.PrivateTestStatus ∧
        p.AcquiredPoints = q.AcquiredPoints ∧ p.Feedback = q.Feedback ∧
        p.TutorID = q.TutorID ∧ p.UserID = q.UserID ∧ p.SubmissionID = q.SubmissionID) := by
  refine ⟨rfl, rfl, rfl, rfl, rfl, rfl, rfl, rfl, rfl, rfl, rfl, rfl, ?_⟩
  intro q
  simp [newGradeResponse]

/-- C2: `newMissingGradeResponse` copies `CourseID`, `SheetID`, `TaskID` and
each of the twelve grade fields of the MissingGrade into the response, so the
(courseID, sheetID, taskID, userID) tuple is read back unchanged. -/
theorem newMissingGradeResponse_copies_fields (p : MissingGrade) :
    (newMissingGradeResponse p).CourseID = p.CourseID ∧
    (newMissingGradeResponse p).SheetID = p.SheetID ∧
    (newMissingGradeResponse p).TaskID = p.TaskID ∧
    (newMissingGradeResponse p).Grade.ID = p.ID ∧
    (newMissingGradeResponse p).Grade.PublicExecutionState = p.PublicExecutionState ∧
    (newMissingGradeResponse p).Grade.PrivateExecutionState = p.PrivateExecutionState ∧
    (newMissingGradeResponse p).Grade.PublicTestLog = p.PublicTestLog ∧
    (newMissingGradeResponse p).Grade.PrivateTestLog = p.PrivateTestLog ∧
    (newMissingGradeResponse p).Grade.PublicTestStatus = p.PublicTestStatus ∧
    (newMissingGradeResponse p).Grade.PrivateTestStatus = p.PrivateTestStatus ∧
    (newMissingGradeResponse p).Grade.AcquiredPoints = p.AcquiredPoints ∧
    (newMissingGradeResponse p).Grade.Feedback = p.Feedback ∧
    (newMissingGradeResponse p).Grade.TutorID = p.TutorID ∧
    (newMissingGradeResponse p).Grade.UserID = p.UserID ∧
    (newMissingGradeResponse p).Grade.SubmissionID = p.SubmissionID ∧
    ((newMissingGradeResponse p).CourseID, (newMissingGradeResponse p).SheetID,
        (newMissingGradeResponse p).TaskID, (newMissingGradeResponse p).Grade.UserID) =
      (p.CourseID, p.SheetID, p.TaskID, p.UserID) := by
  refine ⟨rfl, rfl, rfl, rfl, rfl, rfl, rfl, rfl, rfl, rfl, rfl, rfl, rfl, rfl, rfl, rfl⟩

/-- C3: both list builders keep length and order: the result has as many
elements as the input, its i-th element is the response built from the i-th
input element, and a nil or empty input gives an allocated empty list. -/
theorem list_responses_elementwise (gs : GoSlice Grade) (ms : GoSlice MissingGrade) :
    (newGradeListResponse gs).len = gs.len ∧
    (∀ i : Nat, (newGradeListResponse gs).elems[i]? =
      (gs.elems[i]?).map (fun g => Renderer.gradeResponse (newGradeResponse g))) ∧
    (newMissingGradeListResponse ms).len = ms.len ∧
    (∀ i : Nat, (newMissingGradeListResponse ms).elems[i]? =
      (ms.elems[i]?).map (fun g => Renderer.missingGradeResponse (newMissingGradeResponse g))) ∧
    newGradeListResponse none = some [] ∧ newGradeListResponse (some []) = some [] ∧
    newMissingGradeListResponse none = some [] ∧
    newMissingGradeListResponse (some []) = some [] := by
  refine ⟨?_, ?_, ?_, ?_, rfl, rfl, rfl, rfl⟩
  · rw [newGradeListResponse_eq_map]; simp [GoSlice.len, GoSlice.elems]
  · intro i; rw [newGradeListResponse_eq_map]; simp [GoSlice.elems]
  · rw [newMissingGradeListResponse_eq_map]; simp [GoSlice.len, GoSlice.elems]
  · intro i; rw [newMissingGradeListResponse_eq_map]; simp [GoSlice.elems]

/-! ## `course.go` -/

/-- C4: the `Context` middleware renders `ErrNotFound` and never calls the next
handler when `courseID` does not parse as a base-10 int64 or the store's `Get`
fails for the parsed id; otherwise it calls the next handler exactly once, with
a request whose context value `"course"` is the course `Get` returned. -/
theorem Context_notFound_or_serveNext (d : CourseResource) (r : Request) :
    (((ParseInt (r.URLParam "courseID")).2 ≠ none ∨
        ∃ err, d.Get (ParseInt (r.URLParam "courseID")).1 = .error err) →
      (d.Context r).filter Event.isRender = [Event.render Payload.ErrNotFound] ∧
        (d.Context r).countP Event.isServeNext = 0) ∧
    (∀ course : Course, (ParseInt (r.URLParam "courseID")).2 = none →
      d.Get (ParseInt (r.URLParam "courseID")).1 = .ok course →
      ∃ r' : Request, (d.Context r).filter Event.isServeNext = [Event.serveNext r'] ∧
        r'.Value "course" = some (CtxValue.course course) ∧
        (d.Context r).countP Event.isRender = 0) := by
  unfold CourseResource.Context
  rcases hp : ParseInt (r.URLParam "courseID") with ⟨v, perr⟩
  cases perr with
  | some e =>
    refine ⟨fun _ => ?_, fun course h => ?_⟩
    · simp [Event.isRender, Event.isServeNext]
    · simp at h
  | none =>
    cases hg : d.Get v with
    | error e =>
      refine ⟨fun _ => ?_, fun course _ h => ?_⟩
      · simp [hg, Event.isRender, Event.isServeNext]
      · simp [hg] at h
    | ok c =>
      refine ⟨fun h => ?_, fun course _ h => ?_⟩
      · rcases h with h | ⟨err, h⟩
        · simp at h
        · simp [hg] at h
      · simp only [hg, Except.ok.injEq] at h
        subst h
        refine ⟨r.WithValue "course" (CtxValue.course c), ?_, ?_, ?_⟩
        · simp [hg, Event.isServeNext]
        · simp [Request.WithValue]
        · simp [hg, Event.isRender]

/-- Witness for C4 on the sample resource: `courseID = "12a"` does not parse,
`courseID = "2"` is unknown to the store, `courseID = "1"` is served. -/
theorem Context_notFound_or_serveNext_witness :
    ((ParseInt ((sampleRequest "" "12a").URLParam "courseID")).2 ≠ none ∧
      (sampleResource.Context (sampleRequest "" "12a")).filter Event.isRender =
        [Event.render Payload.ErrNotFound] ∧
      (sampleResource.Context (sampleRequest "" "12a")).countP Event.isServeNext = 0) ∧
    (sampleResource.Get (ParseInt ((sampleRequest "" "2").URLParam "courseID")).1 =
        .error (GoError.other "no rows") ∧
      (sampleResource.Context (sampleRequest "" "2")).filter Event.isRender =
        [Event.render Payload.ErrNotFound] ∧
      (sampleResource.Context (sampleRequest "" "2")).countP Event.isServeNext = 0) ∧
    ((ParseInt ((sampleRequest "" "1").URLParam "courseID")).2 = none ∧
      ∃ r' : Request,
        (sampleResource.Context (sampleRequest "" "1")).filter Event.isServeNext =
          [Event.serveNext r'] ∧
        r'.Value "course" = some (CtxValue.course { ID := 1, Name := "Informatik 1" }) ∧
        (sampleResource.Context (sampleRequest "" "1")).countP Event.isRender = 0) :=
  ⟨⟨by decide,
      (Context_notFound_or_serveNext sampleResource (sampleRequest "" "12a")).1
        (Or.inl (by decide))⟩,
    ⟨rfl,
      (Context_notFound_or_serveNext sampleResource (sampleRequest "" "2")).1
        (Or.inr ⟨GoError.other "no rows", rfl⟩)⟩,
    ⟨by decide,
      (Context_notFound_or_serveNext sampleResource (sampleRequest "" "1")).2
        { ID := 1, Name := "Informatik 1" } (by decide) rfl⟩⟩

/-- C5: for a `courseRequest` whose embedded Course is not nil, `Bind` returns,
and afterwards `ProtectedID` is 0 whatever it was before while the embedded
Course, its `ID` included, is unchanged. -/
theorem Bind_resets_ProtectedID (body : courseRequest) (c : Course)
    (h : body.Course = some c) :
    ∃ (body' : courseRequest) (err : Option GoError),
      body.Bind = some (body', err) ∧ body'.ProtectedID = 0 ∧ body'.Course = some c := by
  unfold courseRequest.Bind
  simp [h]

/-- Witness for C5: a request carrying id 42 in `ProtectedID` and a course with
id 9. -/
theorem Bind_resets_ProtectedID_witness :
    ∃ (body' : courseRequest) (err : Option GoError),
      courseRequest.Bind { Course := some { ID := 9, Name := "Algo" }, ProtectedID := 42 } =
        some (body', err) ∧
      body'.ProtectedID = 0 ∧ body'.Course = some { ID := 9, Name := "Algo" } :=
  Bind_resets_ProtectedID { Course := some { ID := 9, Name := "Algo" }, ProtectedID := 42 }
    { ID := 9, Name := "Algo" } rfl

/-- The store is guarded in `CreateHandler`: when `render.Bind` returns an error
(as it does when a decoded, non-nil course has an empty `Name`) or `Validate`
returns an error, the handler only renders `ErrBadRequestWithDetails` of that
error and does not call `CourseStore.Create`; on every request `Create` is
called at most once, and only with the bound course after `Bind` and
`Validate` both succeeded. -/
theorem CreateHandler_create_only_after_validation (rs : CourseResource) (r : Request) :
    (∀ (data : courseRequest) (err : GoError),
      renderBind rs r courseRequest.empty = some (data, some err) →
      rs.CreateHandler r = [Event.render (Payload.ErrBadRequestWithDetails err)]) ∧
    (∀ (data : courseRequest) (c : Course),
      rs.Decode r courseRequest.empty = (data, none) → data.Course = some c → c.Name = "" →
      rs.CreateHandler r =
        [Event.render (Payload.ErrBadRequestWithDetails GoError.nameRequired)]) ∧
    (∀ (data : courseRequest) (c : Course) (err : GoError),
      renderBind rs r courseRequest.empty = some (data, none) → data.Course = some c →
      rs.Validate c = some err →
      rs.CreateHandler r = [Event.render (Payload.ErrBadRequestWithDetails err)]) ∧
    (rs.CreateHandler r).countP Event.isStoreCreate ≤ 1 ∧
    (∀ p : Course, Event.storeCreate p ∈ rs.CreateHandler r →
      ∃ data : courseRequest, renderBind rs r courseRequest.empty = some (data, none) ∧
        data.Course = some p ∧ rs.Validate p = none) := by
  refine ⟨?_, ?_, ?_, ?_, ?_⟩
  · intro data err h
    simp [CourseResource.CreateHandler, h]
  · intro data c hd hc hn
    have hb : renderBind rs r courseRequest.empty =
        some ({ data with ProtectedID := 0 }, some GoError.nameRequired) := by
      simp [renderBind, hd, courseRequest.Bind, hc, hn]
    simp [CourseResource.CreateHandler, hb]
  · intro data c err h hc hv
    simp [CourseResource.CreateHandler, h, hc, hv]
  · unfold CourseResource.CreateHandler
    rcases hb : renderBind rs r courseRequest.empty with _ | ⟨data, _ | err⟩
    · simp [hb, Event.isStoreCreate]
    · rcases hc : data.Course with _ | course
      · simp [hb, hc, Event.isStoreCreate]
      · rcases hv : rs.Validate course with _ | verr
        · rcases hcr : rs.Create course with cerr | newCourse
          · simp [hb, hc, hv, hcr, Event.isStoreCreate]
          · rcases hr : rs.Render (Payload.courseResponse (rs.newCourseResponse newCourse))
              with _ | e
            · simp [hb, hc, hv, hcr, hr, Event.isStoreCreate]
            · simp [hb, hc, hv, hcr, hr, Event.isStoreCreate]
        · simp [hb, hc, hv, Event.isStoreCreate]
    · simp [hb, Event.isStoreCreate]
  · intro p hp
    unfold CourseResource.CreateHandler at hp
    rcases hb : renderBind rs r courseRequest.empty with _ | ⟨data, _ | err⟩
    · simp [hb] at hp
    · rcases hc : data.Course with _ | course
      · simp [hb, hc] at hp
      · rcases hv : rs.Validate course with _ | verr
        · refine ⟨data, rfl, ?_⟩
          rcases hcr : rs.Create course with cerr | newCourse
          · simp [hb, hc, hv, hcr] at hp
            subst hp
            exact ⟨hc, hv⟩
          · rcases hr : rs.Render (Payload.courseResponse (rs.newCourseResponse newCourse))
              with _ | e
            · simp [hb, hc, hv, hcr, hr] at hp
              subst hp
              exact ⟨hc, hv⟩
            · simp [hb, hc, hv, hcr, hr] at hp
              subst hp
              exact ⟨hc, hv⟩
        · simp [hb, hc, hv] at hp
    · simp [hb] at hp

/-- The guard lemma on the sample resource: a body that is not JSON fails to
decode, a blank name fails `Bind`, the name `x` fails validation, and the
name `Algo` reaches the store once. -/
theorem CreateHandler_create_only_after_validation_sample :
    (renderBind sampleResource (sampleRequest "bad" "") courseRequest.empty =
        some (courseRequest.empty, some (GoError.other "invalid json")) ∧
      sampleResource.CreateHandler (sampleRequest "bad" "") =
        [Event.render (Payload.ErrBadRequestWithDetails (GoError.other "invalid json"))]) ∧
    (sampleResource.Decode (sampleRequest bodyBlankName "") courseRequest.empty =
        ({ Course := some { ID := 0, Name := "" }, ProtectedID := 0 }, none) ∧
      sampleResource.CreateHandler (sampleRequest bodyBlankName "") =
        [Event.render (Payload.ErrBadRequestWithDetails GoError.nameRequired)]) ∧
    (sampleResource.Validate { ID := 0, Name := "x" } = some (GoError.other "name too short") ∧
      sampleResource.CreateHandler (sampleRequest bodyNameX "") =
        [Event.render (Payload.ErrBadRequestWithDetails (GoError.other "name too short"))]) ∧
    (sampleResource.CreateHandler (sampleRequest bodyNameAlgo "")).countP
      Event.isStoreCreate ≤ 1 ∧
    (Event.storeCreate { ID := 0, Name := "Algo" } ∈
        sampleResource.CreateHandler (sampleRequest bodyNameAlgo "") ∧
      ∃ data : courseRequest,
        renderBind sampleResource (sampleRequest bodyNameAlgo "") courseRequest.empty =
          some (data, none) ∧
        data.Course = some { ID := 0, Name := "Algo" } ∧
        sampleResource.Validate { ID := 0, Name := "Algo" } = none) :=
  ⟨⟨rfl,
      (CreateHandler_create_only_after_validation sampleResource (sampleRequest "bad" "")).1
        courseRequest.empty (GoError.other "invalid json") rfl⟩,
    ⟨rfl,
      (CreateHandler_create_only_after_validation sampleResource
        (sampleRequest bodyBlankName "")).2.1
        { Course := some { ID := 0, Name := "" }, ProtectedID := 0 } { ID := 0, Name := "" }
        rfl rfl rfl⟩,
    ⟨rfl,
      (CreateHandler_create_only_after_validation sampleResource
        (sampleRequest bodyNameX "")).2.2.1
        { Course := some { ID := 0, Name := "x" }, ProtectedID := 0 } { ID := 0, Name := "x" }
        (GoError.other "name too short") rfl rfl rfl⟩,
    (CreateHandler_create_only_after_validation sampleResource
      (sampleRequest bodyNameAlgo "")).2.2.2.1,
    ⟨List.Mem.head _,
      (CreateHandler_create_only_after_validation sampleResource
        (sampleRequest bodyNameAlgo "")).2.2.2.2 { ID := 0, Name := "Algo" } (List.Mem.head _)⟩⟩

/-- C8: the bad-request answer for a missing course name is not given
when the body decodes without any course field: decoding succeeds and leaves
the embedded Course nil, `Bind` panics on `&body.Name` before the `Required`
rule runs, and `CreateHandler` renders nothing at all (no
`ErrBadRequestWithDetails`); `CourseStore.Create` is not called either. -/
theorem CreateHandler_panics_without_course (rs : CourseResource) (r : Request)
    (data : courseRequest) (hd : rs.Decode r courseRequest.empty = (data, none))
    (hc : data.Course = none) :
    renderBind rs r courseRequest.empty = none ∧
    rs.CreateHandler r = [Event.panic] ∧
    (rs.CreateHandler r).countP Event.isRender = 0 ∧
    (rs.CreateHandler r).countP Event.isStoreCreate = 0 := by
  have hb : renderBind rs r courseRequest.empty = none := by
    simp [renderBind, hd, courseRequest.Bind, hc]
  have ht : rs.CreateHandler r = [Event.panic] := by
    simp [CourseResource.CreateHandler, hb]
  refine ⟨hb, ht, ?_, ?_⟩
  · simp [ht, Event.isRender]
  · simp [ht, Event.isStoreCreate]

/-- Witness for C8: the sample resource on the empty JSON object. -/
theorem CreateHandler_panics_without_course_witness :
    (sampleResource.Decode (sampleRequest bodyEmptyObject "") courseRequest.empty =
        (courseRequest.empty, none) ∧
      courseRequest.empty.Course = none) ∧
    renderBind sampleResource (sampleRequest bodyEmptyObject "") courseRequest.empty = none ∧
    sampleResource.CreateHandler (sampleRequest bodyEmptyObject "") = [Event.panic] ∧
    (sampleResource.CreateHandler (sampleRequest bodyEmptyObject "")).countP
      Event.isRender = 0 ∧
    (sampleResource.CreateHandler (sampleRequest bodyEmptyObject "")).countP
      Event.isStoreCreate = 0 :=
  ⟨⟨rfl, rfl⟩,
    CreateHandler_panics_without_course sampleResource (sampleRequest bodyEmptyObject "")
      courseRequest.empty rfl rfl⟩

/-! ## The grade aggregator -/

namespace Aggregator

/-- A freshly created Grade is consistent. -/
theorem consistent_newState (submissionID userID generation : Nat) :
    Consistent (newState submissionID userID generation) := by
  intro _
  simp [newState]

/-- Recomputation establishes consistency from any state. -/
theorem consistent_recompute (s : State) : Consistent (recompute s) := by
  unfold recompute
  cases ht : s.grade.tutorID with
  | some t => intro h; simp [ht] at h
  | none =>
    cases hp : s.grade.privateExecutionState <;> intro _ <;> simp [hp]

/-- Every transition of the aggregator keeps the state consistent. -/
theorem consistent_applyEvent (s : State) (e : CompletionEvent) (h : Consistent s) :
    Consistent (applyEvent s e) := by
  unfold applyEvent
  split
  · exact consistent_recompute _
  · exact h

/-- Consistency holds after any sequence of completion events. -/
theorem consistent_run (events : List CompletionEvent) (s : State) (h : Consistent s) :
    Consistent (run s events) := by
  induction events generalizing s with
  | nil => exact h
  | cons e es ih => exact ih (applyEvent s e) (consistent_applyEvent s e h)

/-- On a consistent state a public completion leaves every field of the Grade
outside the public track as it was. -/
theorem applyEvent_public_frame (s : State) (e : CompletionEvent) (h : Consistent s)
    (hv : e.visibility = Visibility.Public) :
    { (applyEvent s e).grade with
        publicExecutionState := s.grade.publicExecutionState
        publicTestStatus := s.grade.publicTestStatus
        publicTestLog := s.grade.publicTestLog } = s.grade := by
  rcases s with ⟨⟨pubE, privE, pubS, privS, pubL, privL, pts, fb, tutor, uid, sid⟩,
    pa, pra, pp, gen, cf⟩
  unfold applyEvent
  split
  · unfold recompute updateTrack
    simp only [hv]
    cases tutor with
    | some t => rfl
    | none =>
      have hc := h rfl
      cases privE <;> simp at hc ⊢ <;> omega
  · rfl

/-- The scenario of §8: the public suite passes and the private suite fails
with 6 points; the Grade then reads Passed / Failed / 6. -/
theorem scenario_private_failure_points :
    (run (newState 31 222 0)
      [{ submissionID := 31, visibility := Visibility.Public, attemptNumber := 1,
         generation := 0, outcome := RunOutcome.Succeeded, log := "ok", pointsAwarded := 0 },
       { submissionID := 31, visibility := Visibility.Private, attemptNumber := 1,
         generation := 0, outcome := RunOutcome.Failed, log := "3 of 5 failed",
         pointsAwarded := 6 }]).grade =
      { publicExecutionState := TrackState.Passed, privateExecutionState := TrackState.Failed,
        publicTestStatus := TestStatus.Passed, privateTestStatus := TestStatus.Failed,
        publicTestLog := "ok", privateTestLog := "3 of 5 failed", acquiredPoints := 6,
        feedback := "", tutorID := none, userID := 222, submissionID := 31 } := by
  decide

/-- C7 as stated fails: on a Grade without tutor override whose points (10)
differ from the score of its passed private track (3), an accepted public
completion lowers `acquiredPoints` to 3, and it also moves
`publicExecutionState`, not only `publicTestStatus` and `publicTestLog`. -/
theorem public_completion_lowers_stale_points :
    publicFailure.visibility = Visibility.Public ∧
    staleState.grade.acquiredPoints = 10 ∧
    (applyEvent staleState publicFailure).grade.acquiredPoints = 3 ∧
    (applyEvent staleState publicFailure).grade.acquiredPoints <
      staleState.grade.acquiredPoints ∧
    (applyEvent staleState publicFailure).grade.publicExecutionState ≠
      staleState.grade.publicExecutionState := by
  decide

/-- C7 (amended): on every Grade whose points agree with its private track
whenever no tutor override is present, a public-track completion leaves
`acquiredPoints` no lower than before and changes nothing of the Grade outside
`publicExecutionState`, `publicTestStatus` and `publicTestLog`; every Grade
with a tutor override and every Grade reached from a newly created one by any
sequence of completion events is such a Grade. -/
theorem public_completion_keeps_consistent_points :
    (∀ (s : State) (e : CompletionEvent), Consistent s → e.visibility = Visibility.Public →
      s.grade.acquiredPoints ≤ (applyEvent s e).grade.acquiredPoints ∧
      { (applyEvent s e).grade with
          publicExecutionState := s.grade.publicExecutionState
          publicTestStatus := s.grade.publicTestStatus
          publicTestLog := s.grade.publicTestLog } = s.grade) ∧
    (∀ s : State, s.grade.tutorID ≠ none → Consistent s) ∧
    (∀ (submissionID userID generation : Nat) (events : List CompletionEvent),
      Consistent (run (newState submissionID userID generation) events)) := by
  refine ⟨fun s e h hv => ?_, fun s ht hn => absurd hn ht, fun sid uid gen events => ?_⟩
  · have hf := applyEvent_public_frame s e h hv
    refine ⟨?_, hf⟩
    have hp := congrArg Grade.acquiredPoints hf
    simp only at hp
    exact le_of_eq hp.symm
  · exact consistent_run events _ (consistent_newState sid uid gen)

/-- Witness for the amended C7: after a private run worth 6 points, a failing
public run leaves the 6 points and every field outside the public track in
place. -/
theorem public_completion_keeps_consistent_points_witness :
    Consistent gradedState ∧ publicFailure.visibility = Visibility.Public ∧
    accepts gradedState publicFailure = true ∧
    gradedState.grade.acquiredPoints = 6 ∧
    gradedState.grade.acquiredPoints ≤ (applyEvent gradedState publicFailure).grade.acquiredPoints ∧
    { (applyEvent gradedState publicFailure).grade with
        publicExecutionState := gradedState.grade.publicExecutionState
        publicTestStatus := gradedState.grade.publicTestStatus
        publicTestLog := gradedState.grade.publicTestLog } = gradedState.grade :=
  ⟨by decide, rfl, by decide, by decide,
    public_completion_keeps_consistent_points.1 gradedState publicFailure (by decide) rfl⟩

end Aggregator

end Infomark
